import Mathlib

/-!
Verification development for the CodexOS agent execution engine
(`apps/backend/app/core/agent_engine.py`).

The engine is embedded shallowly: Python dicts holding JSON-shaped data become
association lists over an inductive `Value` type, exceptions become an
`Except PyError` monad, and the in-place mutation of steps by the executor
becomes explicit state passing through the step loop.  Fresh uuid4 identifiers are
modelled by an abstract generator `gen : Nat -> String` threaded positionally
(plan id first, then one id per node in order).

`agent_engine.py` imports `ExecutionContext`, `SecurityGuard` and
`SecurityError` from `app.core.security`, but that module defines none of
them; those three are modelled from the spec (each such definition says so in
its doc comment).  Everything else is translated from the source file.
-/

namespace AgentEngine

/-- JSON-shaped Python values as they occur in flow data, step inputs and
handler outputs. -/
inductive Value where
  | vStr (s : String)
  | vNum (n : Nat)
  | vBool (b : Bool)
  | vList (xs : List Value)
  | vDict (fields : List (String × Value))
  | vNull
deriving Repr

/-- A Python dict with string keys, as an association list (first match wins;
the engine never builds duplicate keys). -/
abbrev PyDict := List (String × Value)

/-- Python dict lookup `d[k]` returning `none` when the key is absent. -/
def assocFind? {β : Type} : List (String × β) → String → Option β
  | [], _ => none
  | (k, v) :: rest, key => if k = key then some v else assocFind? rest key

/-- Python `d.get(k, default)`. -/
def dictGetD (d : PyDict) (k : String) (dflt : Value) : Value :=
  (assocFind? d k).getD dflt

/-- Python truthiness for the values above (empty string, zero, empty
containers and None are falsy). -/
def Value.truthy : Value → Bool
  | .vStr s => !(s == "")
  | .vNum n => !(n == 0)
  | .vBool b => b
  | .vList xs => !xs.isEmpty
  | .vDict fs => !fs.isEmpty
  | .vNull => false

/-- Python `value == "literal"`: true only when the value is that string
(Python equality between a non-string and a string is False). -/
def Value.eqStr : Value → String → Bool
  | .vStr s, t => s == t
  | _, _ => false

/-- Python `str(value)` as interpolated into engine messages.  The engine only
ever interpolates scalar values on the paths the claims exercise; container
rendering is abbreviated. -/
def Value.display : Value → String
  | .vStr s => s
  | .vNum n => toString n
  | .vBool b => if b then "True" else "False"
  | .vList _ => "[...]"
  | .vDict _ => "..."
  | .vNull => "None"

/-- Predicate `leadsWith needle hay`: `hay` starts with `needle`. -/
def leadsWith : List Char → List Char → Bool
  | [], _ => true
  | _ :: _, [] => false
  | a :: as, b :: bs => a == b && leadsWith as bs

/-- Predicate `subSearch needle hay`: `needle` occurs contiguously inside `hay`. -/
def subSearch (needle : List Char) : List Char → Bool
  | [] => leadsWith needle []
  | c :: cs => leadsWith needle (c :: cs) || subSearch needle cs

/-- Python `needle in hay` for strings: substring containment. -/
def strContains (hay needle : String) : Bool := subSearch needle.data hay.data

/-- Python exceptions raised by the engine.  `str(e)` of each is its message
(messages are paraphrased without quote characters). -/
inductive PyError where
  | valueError (msg : String)
  | attributeError (msg : String)
  | typeError (msg : String)
  | securityError (msg : String)
deriving Repr, DecidableEq

/-- Python `str(e)` for the exceptions above. -/
def PyError.toStr : PyError → String
  | .valueError m => m
  | .attributeError m => m
  | .typeError m => m
  | .securityError m => m

/-- Enum `ExecutionStatus` from agent_engine.py. -/
inductive ExecutionStatus where
  | planning
  | executing
  | completed
  | failed
  | interrupted
  | rollingBack
deriving Repr, DecidableEq

/-- Enum `NodeType` from agent_engine.py. -/
inductive NodeType where
  | entry
  | exit
  | llm
  | tool
  | condition
  | loop
  | parallel
  | rollback
deriving Repr, DecidableEq

/-- Enum lookup `NodeType(raw)`: Python enum lookup by value; unknown strings raise
ValueError (modelled as `none` here, thrown by the caller). -/
def NodeType.parse : String → Option NodeType
  | "entry" => some .entry
  | "exit" => some .exit
  | "llm" => some .llm
  | "tool" => some .tool
  | "condition" => some .condition
  | "loop" => some .loop
  | "parallel" => some .parallel
  | "rollback" => some .rollback
  | _ => none

/-- Python `str(node_type)` for the enum members, as interpolated into the
skipped-step reason string. -/
def NodeType.pyStr : NodeType → String
  | .entry => "NodeType.ENTRY"
  | .exit => "NodeType.EXIT"
  | .llm => "NodeType.LLM"
  | .tool => "NodeType.TOOL"
  | .condition => "NodeType.CONDITION"
  | .loop => "NodeType.LOOP"
  | .parallel => "NodeType.PARALLEL"
  | .rollback => "NodeType.ROLLBACK"

/-- One node of the inbound flow JSON: `NodeJSON = (id, type, data)`. -/
structure Node where
  id : String
  type : String
  data : PyDict
deriving Repr

/-- One edge of the inbound flow JSON: target depends on source. -/
structure Edge where
  source : String
  target : String
deriving Repr, DecidableEq

/-- The `flow_data` argument of `create_plan` / `execute_flow`. -/
structure FlowData where
  nodes : List Node
  edges : List Edge
deriving Repr

/-- Modelled from the spec: `ExecutionContext` is imported by agent_engine.py
from app.core.security, but that module does not define it.  Spec section 6
gives the consumed context as user_id, tenant_id, access_token and api_base;
the engine reads it both attribute-style (`context.user_id`) and dict-style
(`context.get(...)`). -/
structure ExecutionContext where
  user_id : String
  tenant_id : String
  access_token : String
  api_base : String

/-- Dict-style `context.get(key)` on the modelled execution context. -/
def ExecutionContext.get? (c : ExecutionContext) (k : String) : Option Value :=
  if k == "user_id" then some (.vStr c.user_id)
  else if k == "tenant_id" then some (.vStr c.tenant_id)
  else if k == "access_token" then some (.vStr c.access_token)
  else if k == "api_base" then some (.vStr c.api_base)
  else none

/-- Dict-style `context.get(key, default)` on the modelled execution
context. -/
def ExecutionContext.getD (c : ExecutionContext) (k : String) (dflt : Value) : Value :=
  (c.get? k).getD dflt

/-- Modelled from the spec: `SecurityGuard` is imported by agent_engine.py
from app.core.security, but that module does not define it.  Spec section 6
names its interface: `validate_tool_access(tool, action, context) -> bool`
and `check_resource_quota(tool, context) -> bool`. -/
structure SecurityGuard where
  validate_tool_access : String → String → ExecutionContext → Bool
  check_resource_quota : String → ExecutionContext → Bool

/-- Dataclass `ExecutionStep`.  `start_time` / `end_time` are wall-clock
floats and carry no claim-relevant information, so they are omitted;
`rollback_data` is never assigned by the engine and is omitted as well. -/
structure ExecutionStep where
  step_id : String
  node_id : String
  node_type : NodeType
  input_data : PyDict
  output_data : Option PyDict := none
  status : ExecutionStatus := .planning
  error : Option String := none

/-- The `resource_requirements` dict computed by `_estimate_resources`.  The
Python floats involved are whole numbers, modelled as naturals. -/
structure ResourceRequirements where
  estimated_cpu_time : Nat
  estimated_memory_mb : Nat
  estimated_disk_mb : Nat
  max_concurrent_steps : Nat
deriving Repr, DecidableEq

/-- Dataclass `ExecutionPlan` (`estimated_duration` keeps its 0.0 default
everywhere and is omitted). -/
structure ExecutionPlan where
  plan_id : String
  steps : List ExecutionStep
  rollback_points : List String
  dependencies : List (String × List String)
  resource_requirements : ResourceRequirements

/-- Dataclass `ExecutionResult` (`execution_time` is wall-clock and
omitted). -/
structure ExecutionResult where
  execution_id : String
  plan_id : String
  status : ExecutionStatus
  steps_completed : Nat
  total_steps : Nat
  output : List (String × PyDict)
  rollbacks_performed : Nat
  errors : List String

/-- Class `RollbackHook`: the only rollback function ever registered is
`_rollback_tool_action`, so the callable field is left implicit and
`hookExecute` below applies that function. -/
structure RollbackHook where
  step_id : String
  rollback_data : PyDict

/-- The critical node types of `_is_rollback_point`. -/
def critical_types : List String := ["tool", "llm", "parallel"]

/-- The critical operation substrings of `_is_rollback_point`. -/
def critical_operations : List String :=
  ["file_write", "database_update", "api_call", "payment"]

/-- Python `op in operation` for one candidate value of `data["operation"]`:
substring test on strings, membership on containers, TypeError on
non-iterable scalars. -/
def valContains (operation : Value) (op : String) : Except PyError Bool :=
  match operation with
  | .vStr s => .ok (strContains s op)
  | .vList xs => .ok (xs.any (fun v => v.eqStr op))
  | .vDict fs => .ok (fs.any (fun p => p.1 == op))
  | _ => .error (.typeError "argument is not iterable")

/-- Python `any(op in operation for op in critical_operations)` with its
short-circuit evaluation order. -/
def anyContains (operation : Value) : List String → Except PyError Bool
  | [] => .ok false
  | op :: rest => do
    let b ← valContains operation op
    if b then .ok true else anyContains operation rest

/-- Method `AgentPlanner._is_rollback_point`. -/
def isRollbackPoint (node : Node) : Except PyError Bool :=
  if critical_types.contains node.type then
    anyContains (dictGetD node.data "operation" (.vStr "")) critical_operations
  else .ok false

/-- The per-node loop of `create_plan`: build one `ExecutionStep` per node
(raising ValueError on an unknown node type string, as `NodeType(raw)` does)
and collect the rollback points.  `gen k` supplies the uuid4 for the step at
index `k - 1`. -/
def buildSteps (gen : Nat → String) : Nat → List Node → Except PyError (List ExecutionStep × List String)
  | _, [] => .ok ([], [])
  | k, node :: rest => do
    let nt ← match NodeType.parse node.type with
      | some t => pure t
      | none => throw (.valueError (node.type ++ " is not a valid NodeType"))
    let step : ExecutionStep :=
      { step_id := gen k, node_id := node.id, node_type := nt,
        input_data := node.data, status := .planning }
    let isRb ← isRollbackPoint node
    let (steps, rbs) ← buildSteps gen (k + 1) rest
    .ok (step :: steps, (if isRb then [step.step_id] else []) ++ rbs)

/-- One iteration of `_build_dependencies`: `dependencies[target].append(source)`,
creating the entry if absent. -/
def depAppend (deps : List (String × List String)) (target source : String) :
    List (String × List String) :=
  if (assocFind? deps target).isSome then
    deps.map (fun p => if p.1 = target then (p.1, p.2 ++ [source]) else p)
  else
    deps ++ [(target, [source])]

/-- Method `AgentPlanner._build_dependencies`: fold the edges into the map, keyed by
edge target (a node id). -/
def buildDependencies (edges : List Edge) : List (String × List String) :=
  edges.foldl (fun deps e => depAppend deps e.target e.source) []

/-- Method `AgentPlanner._estimate_resources`. -/
def estimateResources (steps : List ExecutionStep) : ResourceRequirements :=
  let totals := steps.foldl
    (fun acc step =>
      match step.node_type with
      | .llm => (acc.1 + 30, acc.2.1 + 512, acc.2.2)
      | .tool => (acc.1 + 10, acc.2.1 + 256, acc.2.2 + 50)
      | _ => acc)
    ((0 : Nat), (0 : Nat), (0 : Nat))
  { estimated_cpu_time := totals.1, estimated_memory_mb := totals.2.1,
    estimated_disk_mb := totals.2.2,
    max_concurrent_steps := min 5 steps.length }

/-- Method `AgentPlanner.create_plan`.  `gen 0` is the plan id, `gen (k+1)` the step
id for the node at index `k`.  (The planner object also constructs a
`SecurityGuard` in `__init__`, but `create_plan` never reads it, so planner
state is not modelled.) -/
def createPlan (gen : Nat → String) (flow : FlowData) : Except PyError ExecutionPlan := do
  let plan_id := gen 0
  let (steps, rollback_points) ← buildSteps gen 1 flow.nodes
  let dependencies := buildDependencies flow.edges
  let resource_requirements := estimateResources steps
  .ok { plan_id := plan_id, steps := steps, rollback_points := rollback_points,
        dependencies := dependencies, resource_requirements := resource_requirements }

/-- Mutable state of an `AgentExecutor` object: the live-executions registry,
the rollback-hooks map, and an attribute slot for `security_guard`.
`none` in that slot means the attribute was never assigned, so reading it
raises AttributeError. -/
structure AgentExecutorState where
  active_executions : List String
  rollback_hooks : List (String × RollbackHook)
  security_guard : Option SecurityGuard

/-- Method `AgentExecutor.__init__`: it assigns only `active_executions` and
`rollback_hooks`; no `security_guard` attribute is ever assigned, on this or
any other code path of the class. -/
def AgentExecutorState.init : AgentExecutorState :=
  { active_executions := [], rollback_hooks := [], security_guard := none }

/-- The attribute access `self.security_guard` on the executor. -/
def getSecurityGuard (ex : AgentExecutorState) : Except PyError SecurityGuard :=
  match ex.security_guard with
  | some g => .ok g
  | none => .error (.attributeError "AgentExecutor object has no attribute security_guard")

/-- Outcome of the one HTTP POST a `trigger_agent` step performs: either a
response (status code, parsed json body, raw text) or a raised network-level
exception with its message. -/
inductive HttpOutcome where
  | resp (status_code : Nat) (body : PyDict) (text : String)
  | exc (msg : String)

/-- Python `x in container` where `x` is the step id string; used for
`step.step_id in execution_context.get("rollback_points", [])`. -/
def valueListContains (v : Value) (x : String) : Bool :=
  match v with
  | .vList xs => xs.any (fun e => e.eqStr x)
  | .vDict fs => fs.any (fun p => p.1 == x)
  | .vStr s => strContains s x
  | _ => false

/-- Method `AgentExecutor._execute_trigger_agent`.  The body of the `try` block is
the HTTP call, whose outcome is the `outcome` argument; everything raised
inside it is converted to an error-shaped result dict.  The `agent_id` guard
and the `context.get("api_base", ...)` read happen before the `try`. -/
def executeTriggerAgent (step : ExecutionStep) (ctx : ExecutionContext)
    (outcome : HttpOutcome) : Except PyError PyDict := do
  let agent_id := (assocFind? step.input_data "agent_id").getD .vNull
  let _input_data := dictGetD step.input_data "input" (.vDict [])
  let _context_data := dictGetD step.input_data "context" (.vList [])
  let _mode := dictGetD step.input_data "mode" (.vStr "autonomous")
  if !agent_id.truthy then
    throw (.valueError "agent_id is required for trigger_agent tool")
  let _api_base := ctx.getD "api_base" (.vStr "http://localhost:8000")
  match outcome with
  | .resp status_code body text =>
    if status_code == 200 then
      .ok [("tool", .vStr "trigger_agent"), ("agent_id", agent_id),
           ("status", .vStr "success"),
           ("output", dictGetD body "output" (.vDict [])),
           ("execution_id", (assocFind? body "execution_id").getD .vNull),
           ("tokens_used", dictGetD body "tokens_used" (.vNum 0)),
           ("cost_cents", dictGetD body "cost_cents" (.vNum 0))]
    else
      .ok [("tool", .vStr "trigger_agent"), ("agent_id", agent_id),
           ("status", .vStr "error"),
           ("error", .vStr ("Failed to trigger agent " ++ agent_id.display ++ ": "
             ++ toString status_code ++ " - " ++ text))]
  | .exc msg =>
    .ok [("tool", .vStr "trigger_agent"), ("agent_id", agent_id),
         ("status", .vStr "error"),
         ("error", .vStr ("Error triggering agent " ++ agent_id.display ++ ": " ++ msg))]

/-- The `with ExecutionSandbox(context).create_sandbox() as workdir` line:
per app/core/security.py, `ExecutionSandbox.__init__` expects a base_dir
string and wraps it in `Path(...)`, so passing the execution context object
raises TypeError before any sandbox directory is created (and
`create_sandbox` would additionally be missing its `execution_id`
argument). -/
def executionSandboxEnter (_ctx : ExecutionContext) : Except PyError String :=
  .error (.typeError "argument should be a str or an os.PathLike object, not ExecutionContext")

/-- Method `AgentExecutor._execute_tool_step`. -/
def executeToolStep (ex : AgentExecutorState) (step : ExecutionStep)
    (ctx : ExecutionContext) (execution_context : PyDict) (outcome : HttpOutcome) :
    Except PyError (PyDict × AgentExecutorState) := do
  let tool_name := dictGetD step.input_data "tool" (.vStr "")
  let action := dictGetD step.input_data "action" (.vStr "")
  if tool_name.eqStr "trigger_agent" then
    let r ← executeTriggerAgent step ctx outcome
    return (r, ex)
  if !tool_name.truthy then
    throw (.valueError "Tool name is required")
  let guard ← getSecurityGuard ex
  if !(guard.validate_tool_access tool_name.display action.display ctx) then
    throw (.securityError ("Tool " ++ tool_name.display ++ ":" ++ action.display ++ " not allowed"))
  if !(guard.check_resource_quota tool_name.display ctx) then
    throw (.securityError ("Resource quota exceeded for " ++ tool_name.display))
  let workdir ← executionSandboxEnter ctx
  let result : PyDict :=
    [("tool", tool_name), ("action", action),
     ("result", .vStr ("Tool " ++ tool_name.display ++ " executed successfully")),
     ("workdir", .vStr workdir)]
  let ex' :=
    if valueListContains (dictGetD execution_context "rollback_points" (.vList [])) step.step_id then
      { ex with rollback_hooks := ex.rollback_hooks ++
          [(step.step_id,
            { step_id := step.step_id,
              rollback_data := [("tool", tool_name), ("action", action), ("result", .vDict result)] })] }
    else ex
  return (result, ex')

/-- Method `AgentExecutor._execute_llm_step` (mock LLM collaborator response). -/
def executeLlmStep (step : ExecutionStep) : PyDict :=
  [("response", .vStr ("LLM response for " ++ step.node_id)),
   ("tokens_used", .vNum 100), ("model", .vStr "gpt-4")]

/-- Method `AgentExecutor._execute_condition_step`: only the literal string "true"
evaluates to true. -/
def executeConditionStep (step : ExecutionStep) : PyDict :=
  let condition := dictGetD step.input_data "condition" (.vStr "true")
  [("condition_result", .vBool (condition.eqStr "true"))]

/-- Method `AgentExecutor._execute_step`: dispatch on the node type; anything other
than llm / tool / condition falls to the skipped-output branch. -/
def executeStep (ex : AgentExecutorState) (step : ExecutionStep)
    (ctx : ExecutionContext) (execution_context : PyDict) (outcome : HttpOutcome) :
    Except PyError (PyDict × AgentExecutorState) :=
  match step.node_type with
  | .llm => .ok (executeLlmStep step, ex)
  | .tool => executeToolStep ex step ctx execution_context outcome
  | .condition => .ok (executeConditionStep step, ex)
  | _ => .ok ([("status", .vStr "skipped"),
               ("reason", .vStr ("Node type " ++ step.node_type.pyStr ++ " not implemented"))], ex)

/-- Method `AgentExecutor._rollback_tool_action`: logs and reports success. -/
def rollbackToolAction (_rollback_data : PyDict) : Bool := true

/-- Method `RollbackHook.execute`: runs the registered function (always
`_rollback_tool_action`, which returns True) and reports its result. -/
def hookExecute (hook : RollbackHook) : Bool := rollbackToolAction hook.rollback_data

/-- Method `AgentExecutor._rollback_step`: executes the hook registered for the step
if any, otherwise reports False. -/
def rollbackStep (hooks : List (String × RollbackHook)) (step : ExecutionStep) : Bool :=
  match assocFind? hooks step.step_id with
  | some hook => hookExecute hook
  | none => false

/-- Method `AgentExecutor._rollback_execution`, observed as the list of step ids
whose compensation hook actually runs, in invocation order: iterate
`reversed(plan.steps)` and, for each COMPLETED step, `_rollback_step` invokes
its hook iff one is registered. -/
def rollbackExecutionOrder (hooks : List (String × RollbackHook))
    (steps : List ExecutionStep) : List String :=
  steps.reverse.foldl
    (fun invoked step =>
      if step.status = .completed then
        match assocFind? hooks step.step_id with
        | some _ => invoked ++ [step.step_id]
        | none => invoked
      else invoked)
    []

/-- Method `AgentExecutor._check_dependencies`: a step with no entry in the
dependencies map is eligible; otherwise the count of previously completed
steps must reach the length of its dependency list. -/
def checkDependencies (step : ExecutionStep) (dependencies : List (String × List String))
    (completed_steps : Nat) : Bool :=
  match assocFind? dependencies step.step_id with
  | none => true
  | some required_steps => decide (required_steps.length ≤ completed_steps)

/-- Method `AgentExecutor._is_critical_step`. -/
def isCriticalStep (step : ExecutionStep) : Bool :=
  step.node_type = .tool || step.node_type = .llm

/-- Method `AgentExecutor._collect_outputs`: outputs of COMPLETED steps with truthy
(non-empty) output data, keyed by node id. -/
def collectOutputs (steps : List ExecutionStep) : List (String × PyDict) :=
  steps.foldl
    (fun outputs step =>
      match step.status, step.output_data with
      | .completed, some out => if out.isEmpty then outputs else outputs ++ [(step.node_id, out)]
      | _, _ => outputs)
    []

/-- Loop state of `_execute_steps`: counters, the error list, the rollback
counter, the steps processed so far (the in-place mutation of `plan.steps`
made explicit, in plan order) and the executor object state. -/
structure LoopState where
  completed_steps : Nat
  errors : List String
  rollbacks_performed : Nat
  stepsDone : List ExecutionStep
  ex : AgentExecutorState

/-- The `for step in plan.steps` loop of `_execute_steps`.  A failed
dependency check `continue`s past the untouched step; a handler exception
marks the step FAILED, appends the error, attempts the rollback of that step
if it is a rollback point, and `break`s iff the step is critical; a success
marks the step COMPLETED and `break`s only if the execution id has
disappeared from the live registry (the interruption check).  On `break` the
remaining steps are left untouched. -/
def execStepsLoop (ctx : ExecutionContext) (dependencies : List (String × List String))
    (rollback_points : List String) (execution_context : PyDict)
    (http : ExecutionStep → HttpOutcome) (execution_id : String) :
    List ExecutionStep → LoopState → LoopState
  | [], st => st
  | step :: rest, st =>
    if checkDependencies step dependencies st.completed_steps then
      let stepExecuting := { step with status := .executing }
      match executeStep st.ex stepExecuting ctx execution_context (http step) with
      | .ok (output, ex') =>
        let step' := { stepExecuting with output_data := some output, status := .completed }
        let st' := { st with completed_steps := st.completed_steps + 1,
                             stepsDone := st.stepsDone ++ [step'], ex := ex' }
        if !(ex'.active_executions.contains execution_id) then
          { st' with stepsDone := st'.stepsDone ++ rest }
        else
          execStepsLoop ctx dependencies rollback_points execution_context http execution_id rest st'
      | .error e =>
        let step' := { stepExecuting with status := .failed, error := some e.toStr }
        let rollbacks' :=
          if rollback_points.contains step.step_id then
            if rollbackStep st.ex.rollback_hooks step' then st.rollbacks_performed + 1
            else st.rollbacks_performed
          else st.rollbacks_performed
        let st' := { st with errors := st.errors ++ ["Step " ++ step.step_id ++ ": " ++ e.toStr],
                             rollbacks_performed := rollbacks',
                             stepsDone := st.stepsDone ++ [step'] }
        if isCriticalStep step' then
          { st' with stepsDone := st'.stepsDone ++ rest }
        else
          execStepsLoop ctx dependencies rollback_points execution_context http execution_id rest st'
    else
      execStepsLoop ctx dependencies rollback_points execution_context http execution_id rest
        { st with stepsDone := st.stepsDone ++ [step] }

/-- Method `AgentExecutor._execute_steps` followed by the bookkeeping of
`execute_plan`: register the execution id, run the loop, assemble the result
(COMPLETED iff every step completed), and deregister the id in the `finally`
block.  The loop never raises (every handler exception is caught per step),
so the rollback-and-reraise arms of `execute_plan` are unreachable on this
path; cancellation is concurrency and is not modelled. -/
def executePlan (execution_id : String) (ex : AgentExecutorState) (plan : ExecutionPlan)
    (ctx : ExecutionContext) (http : ExecutionStep → HttpOutcome) :
    ExecutionResult × AgentExecutorState :=
  let exReg := { ex with active_executions := ex.active_executions ++ [execution_id] }
  let execution_context : PyDict :=
    [("execution_id", .vStr execution_id), ("plan_id", .vStr plan.plan_id),
     ("user_id", .vStr ctx.user_id), ("tenant_id", .vStr ctx.tenant_id)]
  let st := execStepsLoop ctx plan.dependencies plan.rollback_points execution_context http
    execution_id plan.steps
    { completed_steps := 0, errors := [], rollbacks_performed := 0, stepsDone := [], ex := exReg }
  let result : ExecutionResult :=
    { execution_id := execution_id, plan_id := plan.plan_id,
      status := if st.completed_steps == plan.steps.length then .completed else .failed,
      steps_completed := st.completed_steps, total_steps := plan.steps.length,
      output := collectOutputs st.stepsDone,
      rollbacks_performed := st.rollbacks_performed, errors := st.errors }
  (result, { st.ex with
      active_executions := st.ex.active_executions.filter (fun i => !(i == execution_id)) })

/-- Method `AgentEngine.execute_flow`: plan with a fresh planner-side id supply, then
execute on a freshly constructed executor; a planning exception propagates to
the caller. -/
def executeFlow (gen : Nat → String) (execution_id : String) (flow : FlowData)
    (ctx : ExecutionContext) (http : ExecutionStep → HttpOutcome) :
    Except PyError ExecutionResult := do
  let plan ← createPlan gen flow
  let (result, _) := executePlan execution_id AgentExecutorState.init plan ctx http
  return result

/-! ## Concrete fixtures used by counterexamples and witnesses -/

/-- A deterministic stand-in for the uuid4 supply: distinct ids that differ
from every node id used in the fixtures. -/
def gen0 : Nat → String := fun n => "uuid-" ++ toString n

/-- A concrete execution context. -/
def ctx0 : ExecutionContext :=
  { user_id := "u1", tenant_id := "t1", access_token := "tok", api_base := "http://api" }

/-- An HTTP oracle for runs that never reach the sub-agent call. -/
def http0 : ExecutionStep → HttpOutcome := fun _ => .exc "unreachable"

/-- The end-to-end scenario flow of the spec: entry, then a tool node with
operation database_update, then exit. -/
def c1Flow : FlowData :=
  { nodes := [ { id := "n_entry", type := "entry", data := [] },
               { id := "n_tool", type := "tool", data := [("operation", .vStr "database_update")] },
               { id := "n_exit", type := "exit", data := [] } ],
    edges := [ { source := "n_entry", target := "n_tool" },
               { source := "n_tool", target := "n_exit" } ] }

/-! ## C1 -/

/-- C1 (counterexample).  On the entry to tool (operation database_update) to
exit flow the tool handler raises (the step data has no tool name), and the
returned result has status failed with exactly one error naming the tool step
but `rollbacks_performed = 0`, not 1 as the claim states: no rollback hook is
ever registered, so `_rollback_step` reports False and the counter is not
incremented. -/
theorem c1_counterexample :
    (executeFlow gen0 "exec-1" c1Flow ctx0 http0).map
        (fun r => (r.status, r.rollbacks_performed, r.errors))
      = .ok (.failed, 0, ["Step uuid-2: Tool name is required"]) := by
  rfl

/-- C1 (amended).  For any fresh-id supply whose ids differ from the node
ids, any execution id, context and HTTP oracle: running the flow
entry to tool (operation database_update) to exit through `execute_flow`
yields status failed, one completed step out of three, exactly one error
entry referencing the tool step, and `rollbacks_performed = 0`.  (The tool
handler always raises on this flow, so the success branch of the original
claim is unrealisable.) -/
theorem c1_end_to_end (gen : Nat → String) (eid : String) (ctx : ExecutionContext)
    (http : ExecutionStep → HttpOutcome)
    (h1 : gen 1 ≠ "n_tool") (h2 : gen 1 ≠ "n_exit")
    (h3 : gen 2 ≠ "n_tool") (h4 : gen 2 ≠ "n_exit") :
    executeFlow gen eid c1Flow ctx http = .ok
      { execution_id := eid, plan_id := gen 0, status := .failed,
        steps_completed := 1, total_steps := 3,
        output := [("n_entry", [("status", .vStr "skipped"),
          ("reason", .vStr "Node type NodeType.ENTRY not implemented")])],
        rollbacks_performed := 0,
        errors := ["Step " ++ gen 2 ++ ": Tool name is required"] } := by
  have e1 : ¬("n_tool" = gen 1) := fun h => h1 h.symm
  have e2 : ¬("n_exit" = gen 1) := fun h => h2 h.symm
  have e3 : ¬("n_tool" = gen 2) := fun h => h3 h.symm
  have e4 : ¬("n_exit" = gen 2) := fun h => h4 h.symm
  simp [executeFlow, createPlan, buildSteps, isRollbackPoint, critical_types,
    critical_operations, anyContains, valContains, strContains, subSearch, leadsWith,
    buildDependencies, depAppend, assocFind?, estimateResources, executePlan,
    execStepsLoop, checkDependencies, executeStep, executeToolStep, executeTriggerAgent,
    executeLlmStep, executeConditionStep, dictGetD, Value.truthy, Value.eqStr,
    Value.display, rollbackStep, hookExecute, rollbackToolAction, isCriticalStep,
    collectOutputs, getSecurityGuard, AgentExecutorState.init, NodeType.parse,
    NodeType.pyStr, PyError.toStr, c1Flow, e1, e2, e3, e4,
    Except.instMonad, Except.bind, Except.map, Except.pure]
  rw [String.append_assoc]
  have hs : ": " ++ "Tool name is required" = ": Tool name is required" := rfl
  rw [hs]

/-- C1 witness: the amended theorem applied at the deterministic id supply. -/
theorem c1_end_to_end_witness :
    executeFlow gen0 "exec-1" c1Flow ctx0 http0 = .ok
      { execution_id := "exec-1", plan_id := gen0 0, status := .failed,
        steps_completed := 1, total_steps := 3,
        output := [("n_entry", [("status", .vStr "skipped"),
          ("reason", .vStr "Node type NodeType.ENTRY not implemented")])],
        rollbacks_performed := 0,
        errors := ["Step " ++ gen0 2 ++ ": Tool name is required"] } :=
  c1_end_to_end gen0 "exec-1" ctx0 http0 (by decide) (by decide) (by decide) (by decide)

/-! ## C2 -/

/-- A flow containing a node whose type string is outside the NodeType
enum. -/
def c2Flow : FlowData :=
  { nodes := [ { id := "n1", type := "custom_widget", data := [] } ], edges := [] }

/-- A flow whose single node has a recognised type with no dispatch handler. -/
def c2SkipFlow : FlowData :=
  { nodes := [ { id := "n1", type := "loop", data := [] } ], edges := [] }

/-- The plan produced for `c2SkipFlow` under the deterministic id supply. -/
def c2Plan : ExecutionPlan :=
  { plan_id := "uuid-0",
    steps := [ { step_id := "uuid-1", node_id := "n1", node_type := .loop,
                 input_data := [], output_data := none, status := .planning, error := none } ],
    rollback_points := [], dependencies := [],
    resource_requirements :=
      { estimated_cpu_time := 0, estimated_memory_mb := 0, estimated_disk_mb := 0,
        max_concurrent_steps := 1 } }

/-- Helper: a successful `buildSteps` run means every node type string parsed
as a NodeType enum member. -/
theorem buildSteps_ok_parse (gen : Nat → String) :
    ∀ (k : Nat) (nodes : List Node), (buildSteps gen k nodes).isOk = true →
      ∀ node ∈ nodes, (NodeType.parse node.type).isSome = true := by
  intro k nodes
  induction nodes generalizing k with
  | nil => intro _ node hmem; cases hmem
  | cons n rest ih =>
    intro h node hmem
    rcases hp : NodeType.parse n.type with _ | t
    · exfalso
      rw [buildSteps, hp] at h
      simp [Except.isOk, Except.toBool, Except.instMonad, Except.bind, throw, throwThe,
        MonadExceptOf.throw] at h
    · rcases List.mem_cons.mp hmem with h1 | h1
      · rw [h1, hp]; rfl
      · refine ih (k + 1) ?_ node h1
        rw [buildSteps, hp] at h
        rcases hr : isRollbackPoint n with e | b
        · rw [hr] at h
          simp [Except.isOk, Except.toBool, Except.instMonad, Except.bind,
            Except.map, Except.pure] at h
        · rw [hr] at h
          rcases hb : buildSteps gen (k + 1) rest with e2 | p
          · rw [hb] at h
            simp [Except.isOk, Except.toBool, Except.instMonad, Except.bind,
              Except.map, Except.pure] at h
          · rfl

/-- C2 (counterexample).  A flow containing a node of type custom_widget does
not yield a skipped step: `NodeType(node.type)` raises ValueError during
planning, and `execute_flow` propagates the exception unhandled. -/
theorem c2_counterexample :
    executeFlow gen0 "exec-2" c2Flow ctx0 http0
      = .error (.valueError "custom_widget is not a valid NodeType") := by
  rfl

/-- C2 (amended).  Once planning succeeds, `execute_flow` never raises: it
returns the result assembled by the executor, whose status is terminal
(COMPLETED or FAILED).  At dispatch time, a step whose recognised node type
has no handler (anything other than llm, tool, condition) produces the output
dict with status skipped and a reason string, succeeding rather than
aborting.  A node type string outside the enum, however, makes planning
itself fail, so such a node never reaches the executor. -/
theorem c2_unknown_type_policy :
    (∀ (gen : Nat → String) (eid : String) (flow : FlowData) (ctx : ExecutionContext)
        (http : ExecutionStep → HttpOutcome) (plan : ExecutionPlan),
      createPlan gen flow = .ok plan →
        executeFlow gen eid flow ctx http
            = .ok (executePlan eid AgentExecutorState.init plan ctx http).1
          ∧ ((executePlan eid AgentExecutorState.init plan ctx http).1.status = .completed
              ∨ (executePlan eid AgentExecutorState.init plan ctx http).1.status = .failed))
    ∧ (∀ (ex : AgentExecutorState) (step : ExecutionStep) (ctx : ExecutionContext)
        (ecx : PyDict) (out : HttpOutcome),
      step.node_type ≠ .llm → step.node_type ≠ .tool → step.node_type ≠ .condition →
        executeStep ex step ctx ecx out
          = .ok ([("status", .vStr "skipped"),
                  ("reason", .vStr ("Node type " ++ step.node_type.pyStr ++ " not implemented"))], ex))
    ∧ (∀ (gen : Nat → String) (flow : FlowData), (createPlan gen flow).isOk = true →
        ∀ node ∈ flow.nodes, (NodeType.parse node.type).isSome = true) := by
  refine ⟨?_, ?_, ?_⟩
  · intro gen eid flow ctx http plan h
    constructor
    · simp [executeFlow, h, Except.instMonad, Except.bind, Except.pure]
    · simp only [executePlan]
      by_cases hc : ((execStepsLoop ctx plan.dependencies plan.rollback_points
          [("execution_id", Value.vStr eid), ("plan_id", Value.vStr plan.plan_id),
           ("user_id", Value.vStr ctx.user_id), ("tenant_id", Value.vStr ctx.tenant_id)]
          http eid plan.steps
          { completed_steps := 0, errors := [], rollbacks_performed := 0, stepsDone := [],
            ex := { active_executions := AgentExecutorState.init.active_executions ++ [eid],
                    rollback_hooks := AgentExecutorState.init.rollback_hooks,
                    security_guard := AgentExecutorState.init.security_guard } }).completed_steps
          == plan.steps.length) = true <;> simp [hc]
  · intro ex step ctx ecx out h1 h2 h3
    obtain ⟨sid, nid, nt, inp, o, stt, er⟩ := step
    cases nt <;> simp_all [executeStep, NodeType.pyStr]
  · intro gen flow h
    refine buildSteps_ok_parse gen 1 flow.nodes ?_
    rcases hb : buildSteps gen 1 flow.nodes with e | p
    · rw [createPlan, hb] at h
      simp [Except.isOk, Except.toBool, Except.instMonad, Except.bind,
        Except.map, Except.pure] at h
    · rfl

/-- C2 witness: the amended theorem applied to the loop-node flow and to a
concrete unhandled step. -/
theorem c2_unknown_type_policy_witness :
    (executeFlow gen0 "exec-3" c2SkipFlow ctx0 http0
        = .ok (executePlan "exec-3" AgentExecutorState.init c2Plan ctx0 http0).1
      ∧ ((executePlan "exec-3" AgentExecutorState.init c2Plan ctx0 http0).1.status = .completed
          ∨ (executePlan "exec-3" AgentExecutorState.init c2Plan ctx0 http0).1.status = .failed))
    ∧ executeStep AgentExecutorState.init
        { step_id := "uuid-1", node_id := "n1", node_type := .loop, input_data := [] }
        ctx0 [] (.exc "unreachable")
        = .ok ([("status", .vStr "skipped"),
                ("reason", .vStr ("Node type " ++ NodeType.pyStr .loop ++ " not implemented"))],
               AgentExecutorState.init)
    ∧ ((NodeType.parse "loop").isSome = true) :=
  ⟨c2_unknown_type_policy.1 gen0 "exec-3" c2SkipFlow ctx0 http0 c2Plan (by rfl),
   c2_unknown_type_policy.2.1 AgentExecutorState.init
     { step_id := "uuid-1", node_id := "n1", node_type := .loop, input_data := [] }
     ctx0 [] (.exc "unreachable") (by decide) (by decide) (by decide),
   c2_unknown_type_policy.2.2 gen0 c2SkipFlow (by rfl)
     { id := "n1", type := "loop", data := [] } (by simp [c2SkipFlow])⟩

/-! ## C3 -/

/-- A dependencies map and step used to witness the dependency policy. -/
def c3Deps : List (String × List String) := [("s1", ["a", "b"])]

/-- The step whose id is a key of `c3Deps`. -/
def c3Step : ExecutionStep :=
  { step_id := "s1", node_id := "n1", node_type := .llm, input_data := [] }

/-- An initial loop state over a fresh executor. -/
def st0 : LoopState :=
  { completed_steps := 0, errors := [], rollbacks_performed := 0, stepsDone := [],
    ex := AgentExecutorState.init }

/-- C3.  The dependency check passes exactly when the step has no entry in
the dependencies map or the count of previously completed steps reaches the
length of its dependency list (a count comparison, not an id comparison); and
a step whose check fails is passed over untouched, the loop continuing with
the remaining steps in their original order. -/
theorem c3_dependency_policy :
    (∀ (step : ExecutionStep) (deps : List (String × List String)) (completed : Nat),
      checkDependencies step deps completed = true ↔
        (assocFind? deps step.step_id = none
          ∨ ((assocFind? deps step.step_id).getD []).length ≤ completed))
    ∧ (∀ (ctx : ExecutionContext) (deps : List (String × List String))
        (rps : List String) (ecx : PyDict) (http : ExecutionStep → HttpOutcome)
        (eid : String) (step : ExecutionStep) (rest : List ExecutionStep) (st : LoopState),
      checkDependencies step deps st.completed_steps = false →
        execStepsLoop ctx deps rps ecx http eid (step :: rest) st
          = execStepsLoop ctx deps rps ecx http eid rest
              { st with stepsDone := st.stepsDone ++ [step] }) := by
  constructor
  · intro step deps completed
    rw [checkDependencies]
    rcases hf : assocFind? deps step.step_id with _ | l <;> simp [hf]
  · intro ctx deps rps ecx http eid step rest st h
    rw [execStepsLoop, h]
    simp

/-- C3 witness: the policy applied to a concrete map (entry of length two:
eligible at two completions, skipped at zero). -/
theorem c3_dependency_policy_witness :
    (checkDependencies c3Step c3Deps 2 = true ↔
      (assocFind? c3Deps c3Step.step_id = none
        ∨ ((assocFind? c3Deps c3Step.step_id).getD []).length ≤ 2))
    ∧ execStepsLoop ctx0 c3Deps [] [] http0 "exec-4" [c3Step] st0
        = execStepsLoop ctx0 c3Deps [] [] http0 "exec-4" []
            { st0 with stepsDone := st0.stepsDone ++ [c3Step] } :=
  ⟨c3_dependency_policy.1 c3Step c3Deps 2,
   c3_dependency_policy.2 ctx0 c3Deps [] [] http0 "exec-4" c3Step [] st0 (by decide)⟩

/-! ## C4 -/

/-- Helper: on an executor whose `security_guard` slot was never assigned,
a tool step with a truthy tool name other than trigger_agent reaches the
`self.security_guard` access and raises AttributeError, before the sandbox
line. -/
theorem toolStep_attribute_error (ex : AgentExecutorState) (step : ExecutionStep)
    (ctx : ExecutionContext) (ecx : PyDict) (out : HttpOutcome)
    (h1 : ex.security_guard = none)
    (h2 : (dictGetD step.input_data "tool" (.vStr "")).truthy = true)
    (h3 : (dictGetD step.input_data "tool" (.vStr "")).eqStr "trigger_agent" = false) :
    executeToolStep ex step ctx ecx out
      = .error (.attributeError "AgentExecutor object has no attribute security_guard") := by
  rw [executeToolStep]
  simp [h2, h3, getSecurityGuard, h1, Except.instMonad, Except.bind, Except.map,
    Except.pure, throw, throwThe, MonadExceptOf.throw]

/-- C4.  With the executor as `__init__` leaves it (no `security_guard`
attribute), any tool step whose tool name is non-empty and not trigger_agent
fails with AttributeError at the permission check, before any sandboxed
execution; in the step loop such a step ends FAILED with its error recorded,
and because a tool step is critical the loop breaks, leaving every remaining
step untouched. -/
theorem c4_tool_dispatch_always_raises :
    (∀ (ex : AgentExecutorState) (step : ExecutionStep) (ctx : ExecutionContext)
        (ecx : PyDict) (out : HttpOutcome),
      ex.security_guard = none →
      (dictGetD step.input_data "tool" (.vStr "")).truthy = true →
      (dictGetD step.input_data "tool" (.vStr "")).eqStr "trigger_agent" = false →
        executeToolStep ex step ctx ecx out
          = .error (.attributeError "AgentExecutor object has no attribute security_guard"))
    ∧ (∀ (ctx : ExecutionContext) (deps : List (String × List String)) (rps : List String)
        (ecx : PyDict) (http : ExecutionStep → HttpOutcome) (eid : String)
        (step : ExecutionStep) (rest : List ExecutionStep) (st : LoopState),
      st.ex.security_guard = none → st.ex.rollback_hooks = [] →
      checkDependencies step deps st.completed_steps = true →
      step.node_type = .tool →
      (dictGetD step.input_data "tool" (.vStr "")).truthy = true →
      (dictGetD step.input_data "tool" (.vStr "")).eqStr "trigger_agent" = false →
        execStepsLoop ctx deps rps ecx http eid (step :: rest) st
          = { st with
              errors := st.errors ++ ["Step " ++ step.step_id
                ++ ": AgentExecutor object has no attribute security_guard"],
              stepsDone := st.stepsDone
                ++ [{ step with
                      status := .failed,
                      error := some "AgentExecutor object has no attribute security_guard" }]
                ++ rest }) := by
  constructor
  · intro ex step ctx ecx out h1 h2 h3
    exact toolStep_attribute_error ex step ctx ecx out h1 h2 h3
  · intro ctx deps rps ecx http eid step rest st h1 h2 hcheck hnt h5 h6
    have herr := toolStep_attribute_error st.ex { step with status := .executing }
      ctx ecx (http step) h1 (by simpa using h5) (by simpa using h6)
    rw [hnt] at herr
    rw [execStepsLoop]
    simp [hcheck, executeStep, hnt, herr, rollbackStep, h2, assocFind?,
      PyError.toStr, isCriticalStep, List.append_assoc]
    rw [String.append_assoc]
    have hs : ": " ++ "AgentExecutor object has no attribute security_guard"
        = ": AgentExecutor object has no attribute security_guard" := rfl
    rw [hs]

/-- C4 witness: a concrete tool step (tool fs_read, action read) on the
freshly initialised executor. -/
theorem c4_tool_dispatch_always_raises_witness :
    executeToolStep AgentExecutorState.init
        { step_id := "s1", node_id := "n1", node_type := .tool,
          input_data := [("tool", .vStr "fs_read"), ("action", .vStr "read")] }
        ctx0 [] (.exc "unreachable")
      = .error (.attributeError "AgentExecutor object has no attribute security_guard")
    ∧ execStepsLoop ctx0 [] [] [] http0 "exec-5"
        [{ step_id := "s1", node_id := "n1", node_type := .tool,
           input_data := [("tool", .vStr "fs_read"), ("action", .vStr "read")] }] st0
      = { st0 with
          errors := st0.errors ++ ["Step " ++ "s1"
            ++ ": AgentExecutor object has no attribute security_guard"],
          stepsDone := st0.stepsDone
            ++ [{ step_id := "s1", node_id := "n1", node_type := .tool,
                  input_data := [("tool", .vStr "fs_read"), ("action", .vStr "read")],
                  output_data := none, status := .failed,
                  error := some "AgentExecutor object has no attribute security_guard" }]
            ++ [] } :=
  ⟨c4_tool_dispatch_always_raises.1 AgentExecutorState.init
     { step_id := "s1", node_id := "n1", node_type := .tool,
       input_data := [("tool", .vStr "fs_read"), ("action", .vStr "read")] }
     ctx0 [] (.exc "unreachable") (by rfl) (by decide) (by decide),
   c4_tool_dispatch_always_raises.2 ctx0 [] [] [] http0 "exec-5"
     { step_id := "s1", node_id := "n1", node_type := .tool,
       input_data := [("tool", .vStr "fs_read"), ("action", .vStr "read")] }
     [] st0 (by rfl) (by rfl) (by decide) (by rfl) (by decide) (by decide)⟩

/-! ## C5 -/

/-- C5.  Full rollback invokes compensations exactly for the steps that are
COMPLETED and have a registered hook, and it invokes them in reverse plan
order: the invocation list equals the reversal of the plan-order list of
compensable completed steps (so it is never a forward-order traversal). -/
theorem c5_rollback_reverse_order (hooks : List (String × RollbackHook))
    (steps : List ExecutionStep) :
    rollbackExecutionOrder hooks steps
      = ((steps.filter (fun s => decide (s.status = .completed)
            && (assocFind? hooks s.step_id).isSome)).map (fun s => s.step_id)).reverse := by
  have key : ∀ (l : List ExecutionStep) (acc : List String),
      l.foldl
        (fun invoked step =>
          if step.status = .completed then
            match assocFind? hooks step.step_id with
            | some _ => invoked ++ [step.step_id]
            | none => invoked
          else invoked) acc
      = acc ++ (l.filter (fun s => decide (s.status = .completed)
          && (assocFind? hooks s.step_id).isSome)).map (fun s => s.step_id) := by
    intro l
    induction l with
    | nil => intro acc; simp
    | cons s t ih =>
      intro acc
      by_cases hc : s.status = .completed
      · rcases hh : assocFind? hooks s.step_id with _ | hk
        · simp [hc, hh, ih]
        · simp [hc, hh, ih]
      · simp [hc, ih]
  rw [rollbackExecutionOrder, key, List.nil_append]
  rw [List.filter_reverse, List.map_reverse]

/-! ## C6 -/

/-- A trigger_agent tool step carrying an agent id. -/
def c6Step : ExecutionStep :=
  { step_id := "s1", node_id := "n1", node_type := .tool,
    input_data := [("tool", .vStr "trigger_agent"), ("agent_id", .vStr "agent-7")] }

/-- C6.  For a trigger_agent step carrying a truthy agent_id, a raised
network exception and a non-200 HTTP response are both converted into an
ok result dict with status error and an error message; neither path
propagates an exception, so the parent step bookkeeping proceeds normally. -/
theorem c6_trigger_agent_failure_isolation :
    (∀ (step : ExecutionStep) (ctx : ExecutionContext) (msg : String),
      ((assocFind? step.input_data "agent_id").getD .vNull).truthy = true →
        executeTriggerAgent step ctx (.exc msg)
          = .ok [("tool", .vStr "trigger_agent"),
                 ("agent_id", (assocFind? step.input_data "agent_id").getD .vNull),
                 ("status", .vStr "error"),
                 ("error", .vStr ("Error triggering agent "
                   ++ ((assocFind? step.input_data "agent_id").getD .vNull).display
                   ++ ": " ++ msg))])
    ∧ (∀ (step : ExecutionStep) (ctx : ExecutionContext) (code : Nat)
        (body : PyDict) (text : String),
      ((assocFind? step.input_data "agent_id").getD .vNull).truthy = true →
      (code == 200) = false →
        executeTriggerAgent step ctx (.resp code body text)
          = .ok [("tool", .vStr "trigger_agent"),
                 ("agent_id", (assocFind? step.input_data "agent_id").getD .vNull),
                 ("status", .vStr "error"),
                 ("error", .vStr ("Failed to trigger agent "
                   ++ ((assocFind? step.input_data "agent_id").getD .vNull).display
                   ++ ": " ++ toString code ++ " - " ++ text))]) := by
  constructor
  · intro step ctx msg h
    rw [executeTriggerAgent]
    simp [h, Except.instMonad, Except.bind, Except.map, Except.pure]
  · intro step ctx code body text h hcode
    rw [executeTriggerAgent]
    simp [h, hcode, Except.instMonad, Except.bind, Except.map, Except.pure]

/-- C6 witness: a concrete trigger_agent step against a raised connection
error and against an HTTP 500 response. -/
theorem c6_trigger_agent_failure_isolation_witness :
    executeTriggerAgent c6Step ctx0 (.exc "conn refused")
        = .ok [("tool", .vStr "trigger_agent"),
               ("agent_id", (assocFind? c6Step.input_data "agent_id").getD .vNull),
               ("status", .vStr "error"),
               ("error", .vStr ("Error triggering agent "
                 ++ ((assocFind? c6Step.input_data "agent_id").getD .vNull).display
                 ++ ": " ++ "conn refused"))]
    ∧ executeTriggerAgent c6Step ctx0 (.resp 500 [] "boom")
        = .ok [("tool", .vStr "trigger_agent"),
               ("agent_id", (assocFind? c6Step.input_data "agent_id").getD .vNull),
               ("status", .vStr "error"),
               ("error", .vStr ("Failed to trigger agent "
                 ++ ((assocFind? c6Step.input_data "agent_id").getD .vNull).display
                 ++ ": " ++ toString 500 ++ " - " ++ "boom"))] :=
  ⟨c6_trigger_agent_failure_isolation.1 c6Step ctx0 "conn refused" (by decide),
   c6_trigger_agent_failure_isolation.2 c6Step ctx0 500 [] "boom" (by decide) (by decide)⟩

/-! ## C7 -/

/-- Helper: the short-circuit `any` over the critical operation substrings,
specialised to a string-valued operation, computes the boolean `any` of the
substring tests. -/
theorem anyContains_vStr (s : String) :
    ∀ (l : List String), anyContains (.vStr s) l = .ok (l.any (fun op => strContains s op)) := by
  intro l
  induction l with
  | nil => rfl
  | cons op rest ih =>
    rw [anyContains]
    by_cases hc : strContains s op = true
    · simp [valContains, hc, Except.instMonad, Except.bind, Except.pure]
    · simp [valContains, hc, Except.instMonad, Except.bind, Except.pure, ih]

/-- C7.  A step is marked a rollback point iff its node type string is one of
tool, llm, parallel and its operation string contains one of the critical
substrings; a node with no operation field is never a rollback point; a tool
node whose operation is s3_file_write_backup is always one (it contains
file_write); and a condition node is never one, whatever its data. -/
theorem c7_rollback_point_rule :
    (∀ (node : Node) (s : String), assocFind? node.data "operation" = some (.vStr s) →
      (isRollbackPoint node = .ok true ↔
        (critical_types.contains node.type = true
          ∧ ∃ op ∈ critical_operations, strContains s op = true)))
    ∧ (∀ (node : Node), assocFind? node.data "operation" = none →
        isRollbackPoint node = .ok false)
    ∧ (∀ (id : String) (data : PyDict),
        assocFind? data "operation" = some (.vStr "s3_file_write_backup") →
        isRollbackPoint { id := id, type := "tool", data := data } = .ok true)
    ∧ (∀ (id : String) (data : PyDict),
        isRollbackPoint { id := id, type := "condition", data := data } = .ok false) := by
  refine ⟨?_, ?_, ?_, ?_⟩
  · intro node s h
    rw [isRollbackPoint]
    by_cases hct : node.type ∈ critical_types
    · simp [hct, dictGetD, h, anyContains_vStr, List.any_eq_true]
    · simp [hct]
  · intro node h
    rw [isRollbackPoint]
    by_cases hct : node.type ∈ critical_types
    · simp [hct, dictGetD, h, anyContains_vStr]
      decide
    · simp [hct]
  · intro id data h
    rw [isRollbackPoint]
    simp [critical_types, dictGetD, h, anyContains_vStr]
    decide
  · intro id data
    rw [isRollbackPoint]
    simp [critical_types]

/-- A tool node whose operation contains file_write. -/
def c7ToolNode : Node :=
  { id := "x", type := "tool", data := [("operation", .vStr "s3_file_write_backup")] }

/-- A tool node with no operation field. -/
def c7NoOpNode : Node := { id := "y", type := "tool", data := [] }

/-- C7 witness: the rule applied to a tool node with operation
s3_file_write_backup, a node without an operation field, and a condition
node. -/
theorem c7_rollback_point_rule_witness :
    (isRollbackPoint c7ToolNode = .ok true ↔
      (critical_types.contains c7ToolNode.type = true
        ∧ ∃ op ∈ critical_operations, strContains "s3_file_write_backup" op = true))
    ∧ isRollbackPoint c7NoOpNode = .ok false
    ∧ isRollbackPoint c7ToolNode = .ok true
    ∧ isRollbackPoint { id := "z", type := "condition", data := [("operation", .vStr "file_write")] } = .ok false :=
  ⟨c7_rollback_point_rule.1 c7ToolNode "s3_file_write_backup" (by rfl),
   c7_rollback_point_rule.2.1 c7NoOpNode (by rfl),
   c7_rollback_point_rule.2.2.1 "x" [("operation", .vStr "s3_file_write_backup")] (by rfl),
   c7_rollback_point_rule.2.2.2 "z" [("operation", .vStr "file_write")]⟩

/-! ## C8 helpers: properties of the dependency map construction -/

/-- Helper: updating every entry keyed `t` leaves the lookup at `t` holding
the appended list. -/
theorem assocFind_map_upd (t : String) (s : String) :
    ∀ (deps : List (String × List String)),
      assocFind? (deps.map (fun p => if p.1 = t then (p.1, p.2 ++ [s]) else p)) t
        = (assocFind? deps t).map (fun l => l ++ [s]) := by
  intro deps
  induction deps with
  | nil => rfl
  | cons kv rest ih =>
    obtain ⟨k, v⟩ := kv
    simp only [List.map_cons]
    by_cases hk : k = t
    · subst hk
      rw [if_pos rfl]
      simp [assocFind?]
    · rw [if_neg hk]
      simp [assocFind?, hk, ih]

/-- Helper: updating every entry keyed `t` does not change the lookup at a
different key. -/
theorem assocFind_map_ne (t s u : String) (hu : u ≠ t) :
    ∀ (deps : List (String × List String)),
      assocFind? (deps.map (fun p => if p.1 = t then (p.1, p.2 ++ [s]) else p)) u
        = assocFind? deps u := by
  intro deps
  induction deps with
  | nil => rfl
  | cons kv rest ih =>
    obtain ⟨k, v⟩ := kv
    simp only [List.map_cons]
    by_cases hk : k = t
    · subst hk
      have hku : ¬(k = u) := fun h => hu h.symm
      rw [if_pos rfl]
      simp [assocFind?, hku, ih]
    · rw [if_neg hk]
      by_cases hku : k = u
      · subst hku
        simp [assocFind?]
      · simp [assocFind?, hku, ih]

/-- Helper: appending a fresh entry is found when the key was absent. -/
theorem assocFind_append_absent (t : String) (x : List String) :
    ∀ (deps : List (String × List String)), assocFind? deps t = none →
      assocFind? (deps ++ [(t, x)]) t = some x := by
  intro deps
  induction deps with
  | nil => intro _; simp [assocFind?]
  | cons kv rest ih =>
    intro h
    obtain ⟨k, v⟩ := kv
    by_cases hk : k = t
    · rw [assocFind?, if_pos hk] at h; cases h
    · rw [assocFind?, if_neg hk] at h
      simpa [assocFind?, hk] using ih h

/-- Helper: appending an entry with a different key does not change the
lookup. -/
theorem assocFind_append_ne (t u : String) (x : List String) (hu : u ≠ t) :
    ∀ (deps : List (String × List String)),
      assocFind? (deps ++ [(t, x)]) u = assocFind? deps u := by
  intro deps
  induction deps with
  | nil =>
    have ht : ¬(t = u) := fun h => hu h.symm
    simp [assocFind?, ht]
  | cons kv rest ih =>
    obtain ⟨k, v⟩ := kv
    by_cases hk : k = u
    · subst hk
      simp [assocFind?]
    · simp [assocFind?, hk, ih]

/-- Helper: after `depAppend deps t s`, the entry at `t` is the old list with
`s` appended (the old list being empty when the key was absent). -/
theorem depAppend_find_self (deps : List (String × List String)) (t s : String) :
    assocFind? (depAppend deps t s) t = some ((assocFind? deps t).getD [] ++ [s]) := by
  rw [depAppend]
  rcases hf : assocFind? deps t with _ | v
  · rw [if_neg (by simp [hf])]
    simp [assocFind_append_absent t [s] deps hf]
  · rw [if_pos (by simp [hf])]
    simp [assocFind_map_upd, hf]

/-- Helper: `depAppend deps t s` does not change lookups at other keys. -/
theorem depAppend_find_ne (deps : List (String × List String)) (t s u : String)
    (hu : u ≠ t) : assocFind? (depAppend deps t s) u = assocFind? deps u := by
  rw [depAppend]
  rcases hf : assocFind? deps t with _ | v
  · rw [if_neg (by simp [hf])]
    exact assocFind_append_ne t u [s] hu deps
  · rw [if_pos (by simp [hf])]
    exact assocFind_map_ne t s u hu deps

/-- Helper: one `depAppend` preserves every recorded dependency. -/
theorem depAppend_preserves (deps : List (String × List String)) (t s u x : String)
    (h : x ∈ (assocFind? deps u).getD []) :
    x ∈ (assocFind? (depAppend deps t s) u).getD [] := by
  by_cases hu : u = t
  · subst hu
    rw [depAppend_find_self]
    exact List.mem_append_left _ h
  · rw [depAppend_find_ne deps t s u hu]
    exact h

/-- Helper: folding further edges into the map preserves every recorded
dependency. -/
theorem depFold_preserves (u x : String) :
    ∀ (edges : List Edge) (deps : List (String × List String)),
      x ∈ (assocFind? deps u).getD [] →
      x ∈ (assocFind? (edges.foldl (fun d e => depAppend d e.target e.source) deps) u).getD [] := by
  intro edges
  induction edges with
  | nil => intro deps h; exact h
  | cons e rest ih =>
    intro deps h
    exact ih _ (depAppend_preserves deps e.target e.source u x h)

/-- Helper: every edge folded into the map ends with its source recorded
under its target. -/
theorem depFold_mem :
    ∀ (edges : List Edge) (deps : List (String × List String)) (e : Edge), e ∈ edges →
      e.source ∈ (assocFind? (edges.foldl (fun d e => depAppend d e.target e.source) deps) e.target).getD [] := by
  intro edges
  induction edges with
  | nil => intro deps e he; cases he
  | cons hd rest ih =>
    intro deps e he
    rcases List.mem_cons.mp he with h1 | h1
    · subst h1
      refine depFold_preserves e.target e.source rest (depAppend deps e.target e.source) ?_
      rw [depAppend_find_self]
      exact List.mem_append_right _ (List.mem_singleton.mpr rfl)
    · exact ih (depAppend deps hd.target hd.source) e h1

/-- Helper: each edge of the flow has its source recorded under its target in
`_build_dependencies`. -/
theorem buildDependencies_mem (edges : List Edge) (e : Edge) (he : e ∈ edges) :
    e.source ∈ (assocFind? (buildDependencies edges) e.target).getD [] :=
  depFold_mem edges [] e he

/-- Helper: a membership in the defaulted lookup means the key is present. -/
theorem mem_getD_isSome {x : String} {o : Option (List String)}
    (h : x ∈ o.getD []) : o.isSome = true := by
  cases o with
  | none => cases h
  | some v => rfl

/-- Helper: a successful `buildSteps` produces one step per node. -/
theorem buildSteps_len (gen : Nat → String) :
    ∀ (k : Nat) (nodes : List Node) (steps : List ExecutionStep) (rbs : List String),
      buildSteps gen k nodes = .ok (steps, rbs) → steps.length = nodes.length := by
  intro k nodes
  induction nodes generalizing k with
  | nil =>
    intro steps rbs h
    rw [buildSteps] at h
    cases h
    rfl
  | cons n rest ih =>
    intro steps rbs h
    rw [buildSteps] at h
    rcases hp : NodeType.parse n.type with _ | t <;> rw [hp] at h
    · simp [Except.instMonad, Except.bind, Except.map, Except.pure, throw, throwThe,
        MonadExceptOf.throw] at h
    · rcases hr : isRollbackPoint n with e | b <;> rw [hr] at h
      · simp [Except.instMonad, Except.bind, Except.map, Except.pure] at h
      · rcases hb : buildSteps gen (k + 1) rest with e2 | p <;> rw [hb] at h
        · simp [Except.instMonad, Except.bind, Except.map, Except.pure] at h
        · simp [Except.instMonad, Except.bind, Except.map, Except.pure] at h
          have hlen := ih (k + 1) p.1 p.2 (by rw [hb])
          rw [← h.1]
          simp [hlen]

/-- Helper: unpacking a successful `create_plan` into its components. -/
theorem createPlan_ok_parts (gen : Nat → String) (flow : FlowData) (plan : ExecutionPlan)
    (h : createPlan gen flow = .ok plan) :
    ∃ steps rbs, buildSteps gen 1 flow.nodes = .ok (steps, rbs)
      ∧ plan.steps = steps ∧ plan.rollback_points = rbs
      ∧ plan.dependencies = buildDependencies flow.edges := by
  rcases hb : buildSteps gen 1 flow.nodes with e | ⟨steps, rbs⟩
  · rw [createPlan, hb] at h
    simp [Except.instMonad, Except.bind, Except.map, Except.pure] at h
  · rw [createPlan, hb] at h
    simp [Except.instMonad, Except.bind, Except.map, Except.pure] at h
    refine ⟨steps, rbs, rfl, ?_, ?_, ?_⟩ <;> rw [← h]

/-! ## C8 -/

/-- A two-node flow with one edge. -/
def c8Flow : FlowData :=
  { nodes := [ { id := "a", type := "entry", data := [] },
               { id := "b", type := "exit", data := [] } ],
    edges := [ { source := "a", target := "b" } ] }

/-- The plan produced for `c8Flow` under the deterministic id supply. -/
def c8Plan : ExecutionPlan :=
  { plan_id := "uuid-0",
    steps := [ { step_id := "uuid-1", node_id := "a", node_type := .entry,
                 input_data := [], output_data := none, status := .planning, error := none },
               { step_id := "uuid-2", node_id := "b", node_type := .exit,
                 input_data := [], output_data := none, status := .planning, error := none } ],
    rollback_points := [], dependencies := [("b", ["a"])],
    resource_requirements :=
      { estimated_cpu_time := 0, estimated_memory_mb := 0, estimated_disk_mb := 0,
        max_concurrent_steps := 2 } }

/-- C8.  Every accepted plan has exactly one step per flow node, and every
edge of the flow has its target present as a key of the dependencies map with
the edge source recorded in that entry. -/
theorem c8_plan_completeness (gen : Nat → String) (flow : FlowData) (plan : ExecutionPlan)
    (h : createPlan gen flow = .ok plan) :
    plan.steps.length = flow.nodes.length
    ∧ ∀ e ∈ flow.edges, (assocFind? plan.dependencies e.target).isSome = true
        ∧ e.source ∈ (assocFind? plan.dependencies e.target).getD [] := by
  obtain ⟨steps, rbs, hb, hsteps, hrbs, hdeps⟩ := createPlan_ok_parts gen flow plan h
  constructor
  · rw [hsteps]
    exact buildSteps_len gen 1 flow.nodes steps rbs hb
  · intro e he
    have hm := buildDependencies_mem flow.edges e he
    rw [hdeps]
    exact ⟨mem_getD_isSome hm, hm⟩

/-- C8 witness: plan completeness on the two-node one-edge flow. -/
theorem c8_plan_completeness_witness :
    c8Plan.steps.length = c8Flow.nodes.length
    ∧ ((assocFind? c8Plan.dependencies "b").isSome = true
        ∧ "a" ∈ (assocFind? c8Plan.dependencies "b").getD []) :=
  ⟨(c8_plan_completeness gen0 c8Flow c8Plan (by rfl)).1,
   (c8_plan_completeness gen0 c8Flow c8Plan (by rfl)).2
     { source := "a", target := "b" } (by simp [c8Flow])⟩

/-! ## C9 -/

/-- A flow whose edge endpoints are node ids (distinct from every generated
step id). -/
def c9Flow : FlowData :=
  { nodes := [ { id := "a", type := "entry", data := [] },
               { id := "b", type := "exit", data := [] } ],
    edges := [ { source := "a", target := "b" } ] }

/-- Helper: every rollback point recorded by `buildSteps` is the step id of
one of the produced steps. -/
theorem buildSteps_rbs_sub (gen : Nat → String) :
    ∀ (k : Nat) (nodes : List Node) (steps : List ExecutionStep) (rbs : List String),
      buildSteps gen k nodes = .ok (steps, rbs) →
      ∀ r ∈ rbs, r ∈ steps.map (fun s => s.step_id) := by
  intro k nodes
  induction nodes generalizing k with
  | nil =>
    intro steps rbs h
    rw [buildSteps] at h
    cases h
    intro r hr
    cases hr
  | cons n rest ih =>
    intro steps rbs h
    rw [buildSteps] at h
    rcases hp : NodeType.parse n.type with _ | t <;> rw [hp] at h
    · simp [Except.instMonad, Except.bind, Except.map, Except.pure, throw, throwThe,
        MonadExceptOf.throw] at h
    · rcases hr : isRollbackPoint n with e | b <;> rw [hr] at h
      · simp [Except.instMonad, Except.bind, Except.map, Except.pure] at h
      · rcases hb : buildSteps gen (k + 1) rest with e2 | p <;> rw [hb] at h
        · simp [Except.instMonad, Except.bind, Except.map, Except.pure] at h
        · simp [Except.instMonad, Except.bind, Except.map, Except.pure] at h
          intro r hmem
          rw [← h.2] at hmem
          rw [← h.1]
          rcases List.mem_append.mp hmem with hl | hl
          · rcases hbval : b with _ | _
            · rw [hbval] at hl; cases hl
            · rw [hbval] at hl
              simp at hl
              simp [hl]
          · have := ih (k + 1) p.1 p.2 (by rw [hb]) r hl
            simp at this
            simp [this]

/-- Helper: one `depAppend` preserves the invariant that every key lies in
`T` and every recorded value in `S`. -/
theorem depAppend_inv (T S : List String) (deps : List (String × List String))
    (t0 s0 : String)
    (hInv : ∀ t l, assocFind? deps t = some l → t ∈ T ∧ ∀ x ∈ l, x ∈ S)
    (ht : t0 ∈ T) (hs : s0 ∈ S) :
    ∀ t l, assocFind? (depAppend deps t0 s0) t = some l → t ∈ T ∧ ∀ x ∈ l, x ∈ S := by
  intro t l hf
  by_cases he : t = t0
  · subst he
    rw [depAppend_find_self] at hf
    cases hf
    refine ⟨ht, ?_⟩
    intro x hx
    rcases List.mem_append.mp hx with hx | hx
    · rcases hold : assocFind? deps t with _ | v
      · rw [hold] at hx; cases hx
      · rw [hold] at hx
        exact (hInv t v hold).2 x hx
    · have hx' := List.mem_singleton.mp hx
      subst hx'
      exact hs
  · rw [depAppend_find_ne deps t0 s0 t he] at hf
    exact hInv t l hf

/-- Helper: folding edges whose targets lie in `T` and sources in `S`
preserves the key/value invariant. -/
theorem depFold_inv (T S : List String) :
    ∀ (edges : List Edge) (deps : List (String × List String)),
      (∀ t l, assocFind? deps t = some l → t ∈ T ∧ ∀ x ∈ l, x ∈ S) →
      (∀ e ∈ edges, e.target ∈ T ∧ e.source ∈ S) →
      ∀ t l,
        assocFind? (edges.foldl (fun d e => depAppend d e.target e.source) deps) t = some l →
        t ∈ T ∧ ∀ x ∈ l, x ∈ S := by
  intro edges
  induction edges with
  | nil => intro deps hInv _ t l hf; exact hInv t l hf
  | cons e rest ih =>
    intro deps hInv hE t l hf
    refine ih (depAppend deps e.target e.source)
      (depAppend_inv T S deps e.target e.source hInv (hE e (by simp)).1 (hE e (by simp)).2)
      (fun e2 he2 => hE e2 (by simp [he2])) t l hf

/-- Helper: every key of `_build_dependencies` is some edge target and every
recorded id some edge source. -/
theorem buildDependencies_ids (edges : List Edge) :
    ∀ t l, assocFind? (buildDependencies edges) t = some l →
      t ∈ edges.map (fun e => e.target) ∧ ∀ x ∈ l, x ∈ edges.map (fun e => e.source) := by
  refine depFold_inv _ _ edges [] ?_ ?_
  · intro t l hf; cases hf
  · intro e he; exact ⟨List.mem_map_of_mem _ he, List.mem_map_of_mem _ he⟩

/-- C9 (counterexample).  On a concrete flow, the dependencies map has a key
(the node id b) that is not the step id of any step: the claimed invariant
fails because the planner keys dependencies by node id while step ids are
freshly generated. -/
theorem c9_counterexample :
    (createPlan gen0 c9Flow).map
        (fun plan => plan.dependencies.all (fun p => plan.steps.any (fun s => s.step_id == p.1)))
      = .ok false := by
  rfl

/-- C9 (amended).  Every id in `rollback_points` is the step id of a step of
the plan; the ids appearing in `dependencies` (keys and values) are edge
targets and edge sources — node ids, not step ids. -/
theorem c9_plan_id_references (gen : Nat → String) (flow : FlowData) (plan : ExecutionPlan)
    (h : createPlan gen flow = .ok plan) :
    (∀ r ∈ plan.rollback_points, r ∈ plan.steps.map (fun s => s.step_id))
    ∧ (∀ t l, assocFind? plan.dependencies t = some l →
        t ∈ flow.edges.map (fun e => e.target)
          ∧ ∀ x ∈ l, x ∈ flow.edges.map (fun e => e.source)) := by
  obtain ⟨steps, rbs, hb, hsteps, hrbs, hdeps⟩ := createPlan_ok_parts gen flow plan h
  constructor
  · rw [hrbs, hsteps]
    exact buildSteps_rbs_sub gen 1 flow.nodes steps rbs hb
  · rw [hdeps]
    exact buildDependencies_ids flow.edges

/-- A one-node flow whose tool node is a rollback point and which carries a
self edge. -/
def c9WFlow : FlowData :=
  { nodes := [ { id := "a", type := "tool", data := [("operation", .vStr "payment")] } ],
    edges := [ { source := "a", target := "a" } ] }

/-- The plan produced for `c9WFlow` under the deterministic id supply. -/
def c9WPlan : ExecutionPlan :=
  { plan_id := "uuid-0",
    steps := [ { step_id := "uuid-1", node_id := "a", node_type := .tool,
                 input_data := [("operation", .vStr "payment")], output_data := none,
                 status := .planning, error := none } ],
    rollback_points := ["uuid-1"], dependencies := [("a", ["a"])],
    resource_requirements :=
      { estimated_cpu_time := 10, estimated_memory_mb := 256, estimated_disk_mb := 50,
        max_concurrent_steps := 1 } }

/-- C9 witness: the amended claim on a flow with one rollback point and one
self edge. -/
theorem c9_plan_id_references_witness :
    "uuid-1" ∈ c9WPlan.steps.map (fun s => s.step_id)
    ∧ "a" ∈ c9WFlow.edges.map (fun e => e.target)
    ∧ "a" ∈ c9WFlow.edges.map (fun e => e.source) := by
  have h := c9_plan_id_references gen0 c9WFlow c9WPlan (by rfl)
  exact ⟨h.1 "uuid-1" (by simp [c9WPlan]),
    (h.2 "a" ["a"] (by rfl)).1,
    (h.2 "a" ["a"] (by rfl)).2 "a" (by simp)⟩

/-! ## C10 -/

/-- A flow with a dangling edge: its target references no node. -/
def c10Flow : FlowData :=
  { nodes := [ { id := "a", type := "entry", data := [] } ],
    edges := [ { source := "a", target := "ghost" } ] }

/-- The plan produced for `c10Flow` under the deterministic id supply. -/
def c10Plan : ExecutionPlan :=
  { plan_id := "uuid-0",
    steps := [ { step_id := "uuid-1", node_id := "a", node_type := .entry,
                 input_data := [], output_data := none, status := .planning, error := none } ],
    rollback_points := [], dependencies := [("ghost", ["a"])],
    resource_requirements :=
      { estimated_cpu_time := 0, estimated_memory_mb := 0, estimated_disk_mb := 0,
        max_concurrent_steps := 1 } }

/-- C10 (counterexample).  Planning accepts a flow whose only edge targets a
nonexistent node id and silently records the dangling reference in the
dependencies map, instead of failing. -/
theorem c10_counterexample :
    (createPlan gen0 c10Flow).map (fun p => p.dependencies) = .ok [("ghost", ["a"])] := by
  rfl

/-- C10 (amended).  Planning performs no edge validation: whether planning
succeeds does not depend on the edges at all, and every edge — dangling or
not — gets its source recorded under its target in the returned plan. -/
theorem c10_no_edge_validation :
    (∀ (gen : Nat → String) (nodes : List Node) (edges edges2 : List Edge),
      (createPlan gen { nodes := nodes, edges := edges }).isOk
        = (createPlan gen { nodes := nodes, edges := edges2 }).isOk)
    ∧ (∀ (gen : Nat → String) (flow : FlowData) (plan : ExecutionPlan),
        createPlan gen flow = .ok plan → ∀ e ∈ flow.edges,
          e.source ∈ (assocFind? plan.dependencies e.target).getD []) := by
  constructor
  · intro gen nodes edges edges2
    rcases hb : buildSteps gen 1 nodes with e | p <;>
      simp [createPlan, hb, Except.isOk, Except.toBool, Except.instMonad, Except.bind,
        Except.map, Except.pure]
  · intro gen flow plan h e he
    obtain ⟨steps, rbs, hb, hsteps, hrbs, hdeps⟩ := createPlan_ok_parts gen flow plan h
    rw [hdeps]
    exact buildDependencies_mem flow.edges e he

/-- C10 witness: dropping the dangling edge leaves planning success
unchanged, and the dangling target carries its source in the plan
produced. -/
theorem c10_no_edge_validation_witness :
    (createPlan gen0 { nodes := c10Flow.nodes, edges := c10Flow.edges }).isOk
        = (createPlan gen0 { nodes := c10Flow.nodes, edges := [] }).isOk
    ∧ "a" ∈ (assocFind? c10Plan.dependencies "ghost").getD [] :=
  ⟨c10_no_edge_validation.1 gen0 c10Flow.nodes c10Flow.edges [],
   c10_no_edge_validation.2 gen0 c10Flow c10Plan (by rfl)
     { source := "a", target := "ghost" } (by simp [c10Flow])⟩

end AgentEngine
